import Mathlib

/-!
Shallow embedding of the receipt-bot pipeline (schemas.py, google_sheets.py,
ocr_processor.py, ai_processor.py, bot.py) and proofs about the claims of its
specification.

Conventions of the embedding:
- Python strings are Lean String (or List Char where index arithmetic matters).
- Python float amounts are Rat; the rendering performed by the Python builtin
  str on a float is an abstract parameter (the claims never hinge on it).
- Raising an exception is modelled with Except; a function that catches all
  exceptions is total in the embedding.
- External library calls (json.loads, the OpenAI client, gspread, float()) are
  parameters of the embedded functions, one parameter per call site outcome.
-/

/-- A raw Python value handed to pydantic validation: a string, a number
(int/float), or anything else (non-coercible). -/
inductive PyVal where
  | str (s : String)
  | num (q : Rat)
  | other
deriving DecidableEq

/-- Raw keyword arguments for constructing a pydantic model with the five
receipt fields; a missing key is none. -/
structure RawReceipt where
  date_sent : Option PyVal
  sender_name : Option PyVal
  receiver_name : Option PyVal
  account_number : Option PyVal
  amount : Option PyVal
deriving DecidableEq

/-- Embeds class ReceiptExtraction of src/schemas.py: five required fields,
  date_sent/sender_name/receiver_name/account_number of type str and amount of
  type float, declared with Field(..., description=...) and no validator. -/
structure ReceiptExtraction where
  date_sent : String
  sender_name : String
  receiver_name : String
  account_number : String
  amount : Rat
deriving DecidableEq

/-- Pydantic coercion for a declared str field: a required field must be
present and be a string. -/
def coerceStr (v : Option PyVal) : Except String String :=
  match v with
  | some (PyVal.str s) => Except.ok s
  | some _ => Except.error "Input should be a valid string"
  | none => Except.error "Field required"

/-- Pydantic (lax-mode) coercion for a declared float field: numbers are
accepted as they are; a string is accepted when the Python float conversion
(the parameter stf) succeeds; anything else fails. -/
def coerceFloat (stf : String → Option Rat) (v : Option PyVal) : Except String Rat :=
  match v with
  | some (PyVal.num q) => Except.ok q
  | some (PyVal.str s) =>
      match stf s with
      | some q => Except.ok q
      | none => Except.error "Input should be a valid number"
  | some PyVal.other => Except.error "Input should be a valid number"
  | none => Except.error "Field required"

/-- Embeds pydantic validation of ReceiptExtraction (src/schemas.py lines
  6-12): every field required, str fields coerced as strings, amount coerced
  as a float.  The source declares no validator, so nothing else is checked. -/
def ReceiptExtraction.validate (stf : String → Option Rat) (r : RawReceipt) :
    Except String ReceiptExtraction := do
  let d ← coerceStr r.date_sent
  let s ← coerceStr r.sender_name
  let rc ← coerceStr r.receiver_name
  let a ← coerceStr r.account_number
  let q ← coerceFloat stf r.amount
  Except.ok ⟨d, s, rc, a, q⟩

/-- Embeds class QuerySchema of src/schemas.py lines 15-18: two required str
  fields and no validator. -/
structure QuerySchema where
  column_to_search : String
  search_value : String
deriving DecidableEq

/-- Case folding used for case-insensitive comparison, a model of the Python
str.lower method on the ASCII column names involved. -/
def lcase (s : String) : List Char := s.data.map Char.toLower

/-- Modelled from the spec: the fixed, ordered column list of the persisted
layout, shared by the Query Model and the Store Adapter.  The repository has
no literal for it under src/; section 6 of the spec fixes the order. -/
def FIXED_COLUMNS : List String :=
  ["date_sent", "sender_name", "receiver_name", "account_number", "amount", "timestamp"]

/-- Modelled from the spec: the Query Planner's plan operation (spec section
4.4) is absent from src/ (only its QuerySchema declaration exists in
src/schemas.py).  The model's forced tool call either declines (none) or
yields a QuerySchema; the planner itself then re-checks column_to_search
case-insensitively against the fixed column list and returns null on a
decline or a failed check. -/
def plan (modelCall : Option QuerySchema) : Option QuerySchema :=
  match modelCall with
  | none => none
  | some q =>
      if FIXED_COLUMNS.any (fun c => lcase c = lcase q.column_to_search) then
        some q
      else
        none

/-- Modelled from the spec: class TransactionData is imported from schemas by
src/google_sheets.py, src/ocr_processor.py and src/bot.py but src/schemas.py
does not define it; the spec's Record (section 3) gives its five fields. -/
structure TransactionData where
  date_sent : String
  sender_name : String
  receiver_name : String
  account_number : String
  amount : Rat
deriving DecidableEq

/-- The mutable state of GoogleSheetsHandler (src/google_sheets.py): the sheet
is none when _setup_client found no credentials or failed, otherwise it holds
the rows of the backing worksheet. -/
structure SheetsState where
  sheet : Option (List (List String))
deriving DecidableEq

/-- Embeds GoogleSheetsHandler.append_transaction (src/google_sheets.py lines
  39-63).  pyStr abstracts the Python builtin str applied to the float amount;
  now is the timestamp datetime.now().strftime produced at line 56;
  backendRaises tells whether the gspread append_row call at line 60 raises.
  Returns the boolean result together with the new state. -/
def append_transaction (pyStr : Rat → String) (st : SheetsState)
    (td : TransactionData) (now : String) (backendRaises : Bool) :
    Bool × SheetsState :=
  match st.sheet with
  | none => (true, st)
  | some rows =>
      let row : List String :=
        [td.sender_name, td.receiver_name, td.account_number,
         pyStr td.amount, td.date_sent, now]
      if backendRaises then
        (false, st)
      else
        (true, ⟨some (rows ++ [row])⟩)

/-- The response_format kind of a chat-completions request in
src/ai_processor.py: the beta structured-outputs call passes the
ReceiptExtraction pydantic class, the fallback call passes a json_object type
dict. -/
inductive RespFormat where
  | pydanticSchema
  | jsonObject
deriving DecidableEq

/-- The structure-relevant keyword arguments of a chat-completions request:
which response_format is passed, how many callables are declared through a
tools/functions argument, and whether a tool_choice/function_call argument
forces the model to call one. -/
structure ChatRequest where
  model : String
  responseFormat : RespFormat
  toolDecls : Nat
  forcesToolCall : Bool
deriving DecidableEq

/-- Embeds the keyword arguments of the first (beta structured outputs) call
  of analyze_receipt (src/ai_processor.py lines 28-52): model
  gpt-4o-2024-08-06, response_format=ReceiptExtraction, and no tools,
  functions, tool_choice or function_call argument. -/
def betaRequest : ChatRequest :=
  ⟨"gpt-4o-2024-08-06", RespFormat.pydanticSchema, 0, false⟩

/-- Embeds the keyword arguments of the fallback call of analyze_receipt
  (src/ai_processor.py lines 57-88): model gpt-4o, response_format of type
  json_object, and no tools, functions, tool_choice or function_call
  argument. -/
def fallbackRequest : ChatRequest :=
  ⟨"gpt-4o", RespFormat.jsonObject, 0, false⟩

/-- Embeds analyze_receipt (src/ai_processor.py lines 18-92).  betaCall is
  the outcome of the beta parse call (ok carries the parsed ReceiptExtraction;
  error carries the raised exception's message); stdCall the outcome of the
  fallback chat call (ok carries message.content); jsonLoads the behaviour of
  json.loads on that content, viewed as keyword arguments; an exception in
  the fallback path is caught by the outer except and yields None. -/
def analyze_receipt (stf : String → Option Rat)
    (betaCall : Except String ReceiptExtraction)
    (stdCall : Except String String)
    (jsonLoads : String → Except String RawReceipt) : Option ReceiptExtraction :=
  match betaCall with
  | Except.ok r => some r
  | Except.error _ =>
      match stdCall with
      | Except.error _ => none
      | Except.ok content =>
          match jsonLoads content with
          | Except.error _ => none
          | Except.ok raw =>
              match ReceiptExtraction.validate stf raw with
              | Except.ok r => some r
              | Except.error _ => none

/-- Embeds the Python str.find method for a single character: the index of
the first occurrence, none standing for -1. -/
def pyFind (c : Char) : List Char → Option Nat
  | [] => none
  | x :: xs => if x = c then some 0 else (pyFind c xs).map (· + 1)

/-- Embeds the Python str.rfind method for a single character: the index of
the last occurrence, none standing for -1. -/
def pyRFind (c : Char) : List Char → Option Nat
  | [] => none
  | x :: xs =>
      match pyRFind c xs with
      | some i => some (i + 1)
      | none => if x = c then some 0 else none

/-- Embeds OCRProcessor._extract_json_from_response (src/ocr_processor.py
  lines 104-119) on a string argument: start_idx = text.find of the opening
  brace, end_idx = text.rfind of the closing brace plus one; when start_idx is
  not -1 and end_idx is not 0 the slice text[start_idx:end_idx] is taken and
  json.loads (the parameter jsonLoads, whose raising is the isOk test) checks
  it; every failure path returns None through the bare except. -/
def extract_json_core {α : Type} (jsonLoads : List Char → Except String α)
    (text : List Char) : Option (List Char) :=
  match pyFind '{' text, pyRFind '}' text with
  | some s, some e =>
      let j := (text.drop s).take (e + 1 - s)
      if (jsonLoads j).isOk then some j else none
  | _, _ => none

/-- The full _extract_json_from_response including a None argument (the
message content of the API reply may be None): text.find on None raises
inside the method's try and the method returns None. -/
def extract_json {α : Type} (jsonLoads : List Char → Except String α) :
    Option (List Char) → Option (List Char)
  | none => none
  | some t => extract_json_core jsonLoads t

/-- Modelled from the spec: class ExtractionResponse is imported from schemas
by src/ocr_processor.py and src/bot.py but src/schemas.py does not define it;
its four fields are fixed by the keyword arguments of the construction sites
in src/ocr_processor.py and the spec's extract contract (section 4.3). -/
structure ExtractionResponse where
  success : Bool
  data : Option TransactionData
  error : Option String
  raw_response : Option String
deriving DecidableEq

/-- The outcomes of the external calls made by one run of
OCRProcessor.extract_data: encode_image (file read plus base64, may raise),
the chat-completions call (may raise; its message content may be None),
json.loads (α is the type of parsed JSON values), and the pydantic validation
TransactionData(**parsed) — the TransactionData class being absent from
src/schemas.py, its validation is an abstract parameter here. -/
structure OCREnv (α : Type) where
  encode_image : Except String String
  apiCall : Except String (Option String)
  jsonLoads : List Char → Except String α
  validateTD : α → Except String TransactionData

/-- Embeds OCRProcessor.extract_data (src/ocr_processor.py lines 19-102):
  encode the image, call the model, extract the JSON substring, on None
  return the failure response with the fixed message, otherwise json.loads
  the substring, validate it as TransactionData, and return the success
  response; any exception is caught at line 96 and becomes a failure response
  carrying the exception's message. -/
def extract_data {α : Type} (env : OCREnv α) : ExtractionResponse :=
  match env.encode_image with
  | Except.error m => ⟨false, none, some m, none⟩
  | Except.ok _ =>
      match env.apiCall with
      | Except.error m => ⟨false, none, some m, none⟩
      | Except.ok raw_content =>
          match extract_json env.jsonLoads (raw_content.map String.data) with
          | none =>
              ⟨false, none, some "No valid JSON found in API response", raw_content⟩
          | some jstr =>
              match env.jsonLoads jstr with
              | Except.error m => ⟨false, none, some m, none⟩
              | Except.ok parsed =>
                  match env.validateTD parsed with
                  | Except.error m => ⟨false, none, some m, none⟩
                  | Except.ok d => ⟨true, some d, none, raw_content⟩

/-- Embeds the Python substring test (the in operator on str), used by
handle_image for the rate-limit hint. -/
def pyIn (needle hay : List Char) : Bool :=
  decide (needle <:+: hay)

/-- The fixed reply of the outer except handler of ReceiptBot.handle_image
(src/bot.py lines 105-109). -/
def generic_error_reply : String :=
  "❌ An error occurred while processing your image. Please try again with a clearer image."

/-- Embeds ReceiptBot._format_success_message (src/bot.py lines 115-133): the
  reply template interpolating the five extracted fields and the save status;
  fmtAmount abstracts the Python format specification ,.2f applied to the
  float amount. -/
def format_success_message (fmtAmount : Rat → String) (d : TransactionData)
    (save_status : String) : String :=
  "\n✅ **Receipt Processed Successfully!**\n\n📋 **Extracted Data:**\n┌────────────────────────────────\n│ 👤 **Sender:** "
    ++ d.sender_name
    ++ "\n│ 👤 **Receiver:** " ++ d.receiver_name
    ++ "  \n│ 🔢 **Account:** " ++ d.account_number
    ++ "\n│ 💰 **Amount:** $" ++ fmtAmount d.amount
    ++ "\n│ 📅 **Date:** " ++ d.date_sent
    ++ "\n└────────────────────────────────\n\n" ++ save_status
    ++ "\n        "

/-- Embeds the reply decision of ReceiptBot.handle_image (src/bot.py lines
  52-113, the first and only syntactically coherent definition in the file):
  given the extraction outcome, whether self.sheets_handler is set, and the
  boolean returned by append_transaction when it is called, the text the bot
  edits into the processing message.  A None data or error field makes the
  attribute access raise and the outer except reply with the generic
  message. -/
def handle_image_reply (fmtAmount : Rat → String)
    (extraction : ExtractionResponse) (sheetsAvailable : Bool)
    (saveResult : Bool) : String :=
  if extraction.success then
    match extraction.data with
    | none => generic_error_reply
    | some d =>
        let save_status :=
          if sheetsAvailable then
            if saveResult then "💾 Data has been saved to the database."
            else "💾 Data extracted but not saved to database."
          else "⚠️  Data extracted but database not available."
        format_success_message fmtAmount d save_status
  else
    match extraction.error with
    | none => generic_error_reply
    | some err =>
        let base := "❌ Extraction failed: " ++ err
        if pyIn "rate limit".data (lcase err) then
          base ++ "\nPlease try again in a minute."
        else base

/-- Modelled from the spec: leap-year rule for the strict calendar-date check
demanded by spec section 4.1 (src/schemas.py performs no date check at all;
this definition exists only to state that comparison). -/
def isLeapYear (y : Nat) : Bool :=
  (y % 4 == 0 && y % 100 != 0) || y % 400 == 0

/-- Modelled from the spec: days in a month, for the strict calendar-date
check of spec section 4.1. -/
def daysInMonth (y m : Nat) : Nat :=
  if m == 2 then (if isLeapYear y then 29 else 28)
  else if m == 4 || m == 6 || m == 9 || m == 11 then 30
  else 31

/-- The numeric value of an ASCII digit, none otherwise. -/
def digitVal (c : Char) : Option Nat :=
  if c.isDigit then some (c.toNat - 48) else none

/-- Reads a list of characters as a decimal number, none when any character
is not a digit. -/
def digitsToNat (cs : List Char) : Option Nat :=
  cs.foldl (fun acc c => acc.bind (fun n => (digitVal c).map (fun d => n * 10 + d)))
    (some 0)

/-- Modelled from the spec: the strict YYYY-MM-DD calendar-date test of spec
sections 3 and 4.1 (must parse as a calendar date in that exact layout).
The source performs no such check; this definition is stated only to compare
the source's validation against the spec's words. -/
def isStrictYMD (s : String) : Bool :=
  match s.data with
  | [y1, y2, y3, y4, '-', m1, m2, '-', d1, d2] =>
      match digitsToNat [y1, y2, y3, y4], digitsToNat [m1, m2], digitsToNat [d1, d2] with
      | some y, some m, some d =>
          decide (1 ≤ m) && decide (m ≤ 12) && decide (1 ≤ d) &&
            decide (d ≤ daysInMonth y m)
      | _, _, _ => false
  | _ => false

/-- A concrete transaction record used in concrete instances. -/
def tdJohn : TransactionData :=
  ⟨"2025-03-01", "John Doe", "Jane Smith", "0123456789", 150⟩

/-- A concrete stand-in for the Python str rendering of a float. -/
def pyStr0 : Rat → String := fun _ => "150.0"

/-- A concrete stand-in for the Python float conversion on strings. -/
def stf0 : String → Option Rat := fun _ => none

/-- C1 counterexample: with the sheet client unavailable (self.sheet is None,
src/google_sheets.py lines 42-44) append_transaction returns True while the
state is unchanged and holds no rows — True is returned in a state where no
write to the store occurred. -/
theorem append_returns_true_without_write :
    (append_transaction pyStr0 ⟨none⟩ tdJohn "2025-03-01 12:00:00" false).1 = true ∧
    (append_transaction pyStr0 ⟨none⟩ tdJohn "2025-03-01 12:00:00" false).2.sheet = none := by
  exact ⟨rfl, rfl⟩

/-- C1 (amended): append_transaction returns True exactly when the sheet
client is unavailable (the save is skipped and the state unchanged) or the
backend append succeeds (the row is appended); it returns False exactly when
the client is available and the backend append raises, and then the state is
unchanged. -/
theorem append_transaction_result_characterization
    (pyStr : Rat → String) (st : SheetsState) (td : TransactionData)
    (now : String) (backendRaises : Bool) :
    ((append_transaction pyStr st td now backendRaises).1 = true
       ↔ st.sheet = none ∨ backendRaises = false) ∧
    ((append_transaction pyStr st td now backendRaises).1 = false
       → (append_transaction pyStr st td now backendRaises).2 = st) ∧
    (∀ rows, st.sheet = some rows → backendRaises = false →
       (append_transaction pyStr st td now backendRaises).2.sheet
         = some (rows ++ [[td.sender_name, td.receiver_name, td.account_number,
                           pyStr td.amount, td.date_sent, now]])) := by
  obtain ⟨sheet⟩ := st
  cases sheet with
  | none => simp [append_transaction]
  | some rows =>
      cases backendRaises <;> simp [append_transaction]

/-- Concrete instance of the C1 theorem: on an available empty sheet and a
non-raising backend, the appended row is recorded. -/
theorem append_transaction_result_characterization_witness :
    (append_transaction pyStr0 ⟨some []⟩ tdJohn "t" false).2.sheet
      = some [[tdJohn.sender_name, tdJohn.receiver_name, tdJohn.account_number,
               pyStr0 tdJohn.amount, tdJohn.date_sent, "t"]] :=
  (append_transaction_result_characterization pyStr0 ⟨some []⟩ tdJohn "t" false).2.2
    [] rfl rfl

/-- Modelled from the spec: the row layout the persisted-layout contract of
spec section 6 claims — [date_sent, sender_name, receiver_name,
account_number, amount, timestamp] with amount rendered as fixed-2-decimal
text (fixed2 abstracts that rendering).  Stated only to compare the source's
row construction against it. -/
def specClaimRow (fixed2 : Rat → String) (td : TransactionData) (now : String) :
    List String :=
  [td.date_sent, td.sender_name, td.receiver_name, td.account_number,
   fixed2 td.amount, now]

/-- A concrete stand-in for a fixed-2-decimal rendering of the amount 150. -/
def fixed2Render : Rat → String := fun _ => "150.00"

/-- C2 counterexample: the row written by append_transaction (src/
google_sheets.py lines 47-57) for a concrete record starts with the sender
name, not the date — it differs from the column order the claim states even
before the amount rendering is considered. -/
theorem appended_row_differs_from_claimed_layout :
    (append_transaction pyStr0 ⟨some []⟩ tdJohn "2025-03-01 12:00:00" false).2.sheet
      = some [["John Doe", "Jane Smith", "0123456789", "150.0",
               "2025-03-01", "2025-03-01 12:00:00"]] ∧
    (append_transaction pyStr0 ⟨some []⟩ tdJohn "2025-03-01 12:00:00" false).2.sheet
      ≠ some [specClaimRow fixed2Render tdJohn "2025-03-01 12:00:00"] := by
  refine ⟨rfl, by decide⟩

/-- C2 (amended): the row written to the store has its values in the order
[sender_name, receiver_name, account_number, str(amount), date_sent,
timestamp]; the amount is rendered by the Python str builtin (not as
fixed-2-decimal text) and every other field is stored unchanged; no header
row is written. -/
theorem appended_row_layout (pyStr : Rat → String) (rows : List (List String))
    (td : TransactionData) (now : String) :
    (append_transaction pyStr ⟨some rows⟩ td now false).2.sheet
      = some (rows ++ [[td.sender_name, td.receiver_name, td.account_number,
                        pyStr td.amount, td.date_sent, now]]) := rfl

/-- C3 counterexample: ReceiptExtraction validation (src/schemas.py lines
6-12) accepts a raw field set whose amount is -1: the result is a record that
is not the Unknown sentinel yet has a non-positive amount. -/
theorem validate_accepts_nonpositive_amount :
    ReceiptExtraction.validate stf0
        ⟨some (PyVal.str "2025-03-01"), some (PyVal.str "John Doe"),
         some (PyVal.str "Jane Smith"), some (PyVal.str "0123456789"),
         some (PyVal.num (-1))⟩
      = Except.ok ⟨"2025-03-01", "John Doe", "Jane Smith", "0123456789", -1⟩ ∧
    ((-1 : Rat) ≤ 0) ∧ ¬(0 < (-1 : Rat)) ∧ ("John Doe" ≠ "Unknown") := by
  refine ⟨rfl, by decide, by decide, by decide⟩

/-- C3 (amended): ReceiptExtraction validation enforces only field presence
and type coercion: any raw field set with string values for the four text
fields and a numeric amount validates, every field — the amount included —
stored unchanged, with no positivity check and no rounding; a present but
non-numeric amount fails. -/
theorem receipt_validation_characterization (stf : String → Option Rat)
    (d s r a : String) (q : Rat) :
    ReceiptExtraction.validate stf
        ⟨some (PyVal.str d), some (PyVal.str s), some (PyVal.str r),
         some (PyVal.str a), some (PyVal.num q)⟩
      = Except.ok ⟨d, s, r, a, q⟩ ∧
    (ReceiptExtraction.validate stf
        ⟨some (PyVal.str d), some (PyVal.str s), some (PyVal.str r),
         some (PyVal.str a), some PyVal.other⟩).isOk = false := by
  exact ⟨rfl, rfl⟩

/-- C4 counterexample: the date 20/11/2025 — not the sentinel and not strict
YYYY-MM-DD — passes ReceiptExtraction validation unchanged. -/
theorem validate_accepts_malformed_date :
    ReceiptExtraction.validate stf0
        ⟨some (PyVal.str "20/11/2025"), some (PyVal.str "John Doe"),
         some (PyVal.str "Jane Smith"), some (PyVal.str "0123456789"),
         some (PyVal.num 150)⟩
      = Except.ok ⟨"20/11/2025", "John Doe", "Jane Smith", "0123456789", 150⟩ ∧
    isStrictYMD "20/11/2025" = false ∧ ("20/11/2025" ≠ "Unknown") := by
  refine ⟨rfl, by decide, by decide⟩

/-- C4 (amended): ReceiptExtraction validation performs no date-format check:
every string value for date_sent — non-sentinel strings failing the strict
YYYY-MM-DD calendar test included — is accepted and stored unchanged. -/
theorem receipt_validation_ignores_date_format (stf : String → Option Rat)
    (ds sn rn an : String) (q : Rat)
    (hNotDate : isStrictYMD ds = false) (hNotSentinel : ds ≠ "Unknown") :
    ReceiptExtraction.validate stf
        ⟨some (PyVal.str ds), some (PyVal.str sn), some (PyVal.str rn),
         some (PyVal.str an), some (PyVal.num q)⟩
      = Except.ok ⟨ds, sn, rn, an, q⟩ := rfl

/-- Concrete instance of the C4 theorem at the string not a date. -/
theorem receipt_validation_ignores_date_format_witness :
    ReceiptExtraction.validate stf0
        ⟨some (PyVal.str "not a date"), some (PyVal.str "A"), some (PyVal.str "B"),
         some (PyVal.str "C"), some (PyVal.num 5)⟩
      = Except.ok ⟨"not a date", "A", "B", "C", 5⟩ :=
  receipt_validation_ignores_date_format stf0 "not a date" "A" "B" "C" 5
    (by decide) (by decide)

/-- C5 counterexample: the fallback request of analyze_receipt
(src/ai_processor.py lines 57-88) declares no callable and forces no call —
it is a JSON-mode request, not a tool/function-call tier. -/
theorem fallback_declares_no_callable :
    fallbackRequest.toolDecls = 0 ∧ fallbackRequest.forcesToolCall = false ∧
    fallbackRequest.responseFormat = RespFormat.jsonObject := by
  exact ⟨rfl, rfl, rfl⟩

/-- C5 (amended): whenever the schema-constrained tier raises, analyze_receipt
invokes the model in JSON mode (response_format json_object, no declared
callable, no forced call), parses the message content with json.loads and
validates against ReceiptExtraction; a failure of the fallback call, the
parse or the validation yields None. -/
theorem fallback_tier_json_mode (stf : String → Option Rat) (msg : String)
    (stdCall : Except String String)
    (jsonLoads : String → Except String RawReceipt) :
    fallbackRequest.responseFormat = RespFormat.jsonObject ∧
    fallbackRequest.toolDecls = 0 ∧
    fallbackRequest.forcesToolCall = false ∧
    analyze_receipt stf (Except.error msg) stdCall jsonLoads
      = stdCall.toOption.bind (fun content =>
          (jsonLoads content).toOption.bind (fun raw =>
            (ReceiptExtraction.validate stf raw).toOption)) := by
  refine ⟨rfl, rfl, rfl, ?_⟩
  cases stdCall with
  | error e => rfl
  | ok content =>
      cases h : jsonLoads content with
      | error e => simp [analyze_receipt, h, Except.toOption]
      | ok raw =>
          cases h2 : ReceiptExtraction.validate stf raw with
          | error e => simp [analyze_receipt, h, h2, Except.toOption]
          | ok r => simp [analyze_receipt, h, h2, Except.toOption]

/-- C7: the planner (modelled from the spec, the plan operation being absent
from src/) returns null when the model declines to call the function, returns
null when the returned column fails the case-insensitive check against the
fixed column list, and every Query it produces has a column_to_search that
case-insensitively equals one of the fixed column names. -/
theorem plan_column_membership (modelCall : Option QuerySchema) :
    (plan none = none) ∧
    (∀ q, modelCall = some q →
        FIXED_COLUMNS.any (fun c => lcase c = lcase q.column_to_search) = false →
        plan modelCall = none) ∧
    (∀ q, plan modelCall = some q →
        ∃ c ∈ FIXED_COLUMNS, lcase c = lcase q.column_to_search) := by
  refine ⟨rfl, ?_, ?_⟩
  · intro q hq hf
    subst hq
    simp [plan, hf]
  · intro q hq
    cases modelCall with
    | none => simp [plan] at hq
    | some q' =>
        by_cases hc : FIXED_COLUMNS.any (fun c => lcase c = lcase q'.column_to_search) = true
        · have hqq : q' = q := by
            simpa [plan, hc] using hq
          subst hqq
          rcases List.any_eq_true.mp hc with ⟨c, hcmem, hceq⟩
          exact ⟨c, hcmem, of_decide_eq_true hceq⟩
        · rw [Bool.not_eq_true] at hc
          simp [plan, hc] at hq

/-- Concrete instance of the C7 theorem: the planner passes the
mixed-case column Sender_Name through, and its lowercase form is in the
fixed column list. -/
theorem plan_column_membership_witness :
    ∃ c ∈ FIXED_COLUMNS,
      lcase c = lcase (QuerySchema.mk "Sender_Name" "Jane").column_to_search :=
  (plan_column_membership (some ⟨"Sender_Name", "Jane"⟩)).2.2
    ⟨"Sender_Name", "Jane"⟩ (by decide)

/-- pyFind returns the position of the first occurrence: the list splits at
the returned index around the sought character and nothing before the split
is that character. -/
theorem pyFind_some {c : Char} {l : List Char} {i : Nat}
    (h : pyFind c l = some i) :
    ∃ pre post, l = pre ++ c :: post ∧ pre.length = i ∧ c ∉ pre := by
  induction l generalizing i with
  | nil => simp [pyFind] at h
  | cons x xs ih =>
      by_cases hx : x = c
      · subst hx
        rw [pyFind, if_pos rfl] at h
        injection h with h
        exact ⟨[], xs, rfl, h, by simp⟩
      · rw [pyFind, if_neg hx] at h
        obtain ⟨j, hj, hji⟩ := Option.map_eq_some'.mp h
        obtain ⟨pre, post, hl, hlen, hmem⟩ := ih hj
        refine ⟨x :: pre, post, by simp [hl], by simp [hlen, hji], ?_⟩
        simp only [List.mem_cons, not_or]
        exact ⟨fun hcx => hx hcx.symm, hmem⟩

/-- When pyRFind finds nothing, the character is absent. -/
theorem pyRFind_eq_none {c : Char} {l : List Char} (h : pyRFind c l = none) :
    c ∉ l := by
  induction l with
  | nil => simp
  | cons x xs ih =>
      rw [pyRFind] at h
      cases hr : pyRFind c xs with
      | some j => rw [hr] at h; cases h
      | none =>
          rw [hr] at h
          by_cases hx : x = c
          · rw [if_pos hx] at h; cases h
          · simp only [List.mem_cons, not_or]
            exact ⟨fun hcx => hx hcx.symm, ih hr⟩

/-- pyRFind returns the position of the last occurrence: the list splits at
the returned index around the sought character and nothing after the split is
that character. -/
theorem pyRFind_some {c : Char} {l : List Char} {i : Nat}
    (h : pyRFind c l = some i) :
    ∃ pre post, l = pre ++ c :: post ∧ pre.length = i ∧ c ∉ post := by
  induction l generalizing i with
  | nil => simp [pyRFind] at h
  | cons x xs ih =>
      rw [pyRFind] at h
      cases hr : pyRFind c xs with
      | some j =>
          rw [hr] at h
          injection h with h
          obtain ⟨pre, post, hl, hlen, hmem⟩ := ih hr
          exact ⟨x :: pre, post, by simp [hl], by simp [hlen, h], hmem⟩
      | none =>
          rw [hr] at h
          by_cases hx : x = c
          · rw [if_pos hx] at h
            injection h with h
            subst hx
            exact ⟨[], xs, rfl, h, pyRFind_eq_none hr⟩
          · rw [if_neg hx] at h; cases h

/-- C10: on every string, _extract_json_from_response either returns None or
returns the substring of its input running from the first opening brace to
the last closing brace, and that substring passes json.loads; it never raises
(the embedding is total by construction) and never returns a non-None string
rejected by json.loads.  The hypothesis records that json.loads raises on the
empty string, as the Python library does. -/
theorem extract_json_sound {α : Type} (jsonLoads : List Char → Except String α)
    (text : List Char) (hEmpty : (jsonLoads []).isOk = false) :
    extract_json_core jsonLoads text = none ∨
    ∃ pre mid post,
      text = pre ++ '{' :: mid ++ '}' :: post ∧
      '{' ∉ pre ∧ '}' ∉ post ∧
      extract_json_core jsonLoads text = some ('{' :: (mid ++ ['}'])) ∧
      (jsonLoads ('{' :: (mid ++ ['}']))).isOk = true := by
  cases hf : pyFind '{' text with
  | none => left; simp [extract_json_core, hf]
  | some s =>
  cases hr : pyRFind '}' text with
  | none => left; simp [extract_json_core, hf, hr]
  | some e =>
  obtain ⟨A, A', hA, hAlen, hAmem⟩ := pyFind_some hf
  obtain ⟨B, B', hB, hBlen, hBmem⟩ := pyRFind_some hr
  rcases Nat.lt_trichotomy s e with hse | hse | hse
  · -- the first opening brace sits before the last closing brace
    have hdropS : text.drop s = '{' :: A' := by
      rw [hA, ← hAlen]; exact List.drop_left A ('{' :: A')
    have hdropE : text.drop e = '}' :: B' := by
      rw [hB, ← hBlen]; exact List.drop_left B ('}' :: B')
    obtain ⟨k, hk⟩ : ∃ k, e - s = k + 1 := ⟨e - s - 1, by omega⟩
    have hdropA' : A'.drop k = '}' :: B' := by
      have h1 : (text.drop s).drop (e - s) = text.drop e := by
        rw [List.drop_drop]; congr 1; omega
      rw [hdropS, hdropE, hk, List.drop_succ_cons] at h1
      exact h1
    have hklt : k < A'.length := by
      by_contra hge
      push_neg at hge
      rw [List.drop_eq_nil_of_le hge] at hdropA'
      exact (List.cons_ne_nil _ _) hdropA'.symm
    have hmidlen : (A'.take k).length = k := by
      rw [List.length_take]; omega
    have hA'split : A' = A'.take k ++ '}' :: B' := by
      conv_lhs => rw [← List.take_append_drop k A']
      rw [hdropA']
    have hslice : (text.drop s).take (e + 1 - s) = '{' :: (A'.take k ++ ['}']) := by
      rw [hdropS]
      have he1 : e + 1 - s = (k + 1) + 1 := by omega
      rw [he1, List.take_succ_cons]
      congr 1
      conv_lhs => rw [hA'split]
      rw [List.take_append_eq_append_take, hmidlen,
        List.take_of_length_le (by rw [hmidlen]; omega)]
      congr 1
      have h2 : k + 1 - k = 1 := by omega
      rw [h2, List.take_succ_cons, List.take_zero]
    by_cases hok : (jsonLoads ('{' :: (A'.take k ++ ['}']))).isOk = true
    · right
      refine ⟨A, A'.take k, B', ?_, hAmem, hBmem, ?_, hok⟩
      · rw [hA]
        conv_lhs => rw [hA'split]
        simp
      · simp [extract_json_core, hf, hr, hslice, hok]
    · left
      rw [Bool.not_eq_true] at hok
      simp [extract_json_core, hf, hr, hslice, hok]
  · -- first opening brace equal to last closing brace: impossible
    exfalso
    subst hse
    rw [hA] at hB
    obtain ⟨-, h2⟩ := List.append_inj hB (by rw [hAlen, hBlen])
    exact absurd (List.head_eq_of_cons_eq h2) (by decide)
  · -- the first opening brace sits after the last closing brace: the slice
    -- is empty and json.loads rejects it
    left
    have h0 : e + 1 - s = 0 := by omega
    simp [extract_json_core, hf, hr, h0, hEmpty]

/-- Concrete instance of the C10 theorem: on the text ab{"x": 1}cd with a
json.loads stub accepting exactly that slice, the method returns the slice
from the first opening brace to the last closing brace. -/
theorem extract_json_sound_witness :
    ((fun j => if j = "\x7b\"x\": 1\x7d".data then Except.ok () else Except.error "no") [] :
        Except String Unit).isOk = false ∧
    (extract_json_core
        (fun j => if j = "\x7b\"x\": 1\x7d".data then Except.ok () else Except.error "no")
        "ab\x7b\"x\": 1\x7dcd".data = none ∨
      ∃ pre mid post,
        "ab\x7b\"x\": 1\x7dcd".data = pre ++ '{' :: mid ++ '}' :: post ∧
        '{' ∉ pre ∧ '}' ∉ post ∧
        extract_json_core
            (fun j => if j = "\x7b\"x\": 1\x7d".data then Except.ok () else Except.error "no")
            "ab\x7b\"x\": 1\x7dcd".data = some ('{' :: (mid ++ ['}'])) ∧
        ((fun j => if j = "\x7b\"x\": 1\x7d".data then Except.ok () else Except.error "no")
            ('{' :: (mid ++ ['}'])) : Except String Unit).isOk = true) :=
  ⟨by decide,
   extract_json_sound
     (fun j => if j = "\x7b\"x\": 1\x7d".data then Except.ok () else Except.error "no")
     "ab\x7b\"x\": 1\x7dcd".data (by decide)⟩

/-- Dissection of a successful _extract_json_from_response run: the returned
string is the slice from the first opening brace to the last closing brace
and json.loads accepts it. -/
theorem extract_json_core_some {α : Type} {jsonLoads : List Char → Except String α}
    {text j : List Char} (h : extract_json_core jsonLoads text = some j) :
    ∃ s e, pyFind '{' text = some s ∧ pyRFind '}' text = some e ∧
      j = (text.drop s).take (e + 1 - s) ∧ (jsonLoads j).isOk = true := by
  cases hf : pyFind '{' text with
  | none => simp [extract_json_core, hf] at h
  | some s =>
  cases hr : pyRFind '}' text with
  | none => simp [extract_json_core, hf, hr] at h
  | some e =>
  by_cases hok : (jsonLoads ((text.drop s).take (e + 1 - s))).isOk = true
  · have hvis : extract_json_core jsonLoads text
        = some ((text.drop s).take (e + 1 - s)) := by
      simp [extract_json_core, hf, hr, hok]
    rw [hvis] at h
    injection h with h
    refine ⟨s, e, rfl, rfl, h.symm, ?_⟩
    rw [h] at hok
    exact hok
  · rw [Bool.not_eq_true] at hok
    have hvis : extract_json_core jsonLoads text = none := by
      simp [extract_json_core, hf, hr, hok]
    rw [hvis] at h
    cases h

/-- C6: with the image encoded and the model having answered with a raw text,
extract_data routes that text through _extract_json_from_response; when no
JSON object is found the outcome is the fixed failure response that carries
no record at all — never a partial record; when a substring is found it is
exactly the first-opening-brace-to-last-closing-brace slice accepted by
json.loads, and the parsed value goes through Record-model validation, whose
outcome alone decides between the success response and a failure response. -/
theorem tier_c_slice_parse_validate {α : Type} (env : OCREnv α) (b : String)
    (text : String)
    (hEnc : env.encode_image = Except.ok b)
    (hApi : env.apiCall = Except.ok (some text)) :
    (extract_json env.jsonLoads (some text.data) = none →
        extract_data env
          = ⟨false, none, some "No valid JSON found in API response", some text⟩) ∧
    (∀ j, extract_json env.jsonLoads (some text.data) = some j →
        (∃ s e, pyFind '{' text.data = some s ∧ pyRFind '}' text.data = some e ∧
            j = (text.data.drop s).take (e + 1 - s) ∧
            (env.jsonLoads j).isOk = true) ∧
        (∀ a, env.jsonLoads j = Except.ok a →
            extract_data env
              = match env.validateTD a with
                | Except.ok d => ⟨true, some d, none, some text⟩
                | Except.error m => ⟨false, none, some m, none⟩)) := by
  constructor
  · intro h
    simp [extract_data, hEnc, hApi, h]
  · intro j hj
    constructor
    · exact extract_json_core_some hj
    · intro a ha
      cases hv : env.validateTD a with
      | ok d => simp [extract_data, hEnc, hApi, hj, ha, hv]
      | error m => simp [extract_data, hEnc, hApi, hj, ha, hv]

/-- A concrete run environment whose model response holds no brace at all. -/
def ocrEnvNoJson : OCREnv Unit :=
  ⟨Except.ok "img", Except.ok (some "no json here"),
   fun _ => Except.error "Expecting value", fun _ => Except.error "missing"⟩

/-- Concrete instance of the C6 theorem: a brace-free model response makes
extract_data return the fixed no-JSON failure response with no record. -/
theorem tier_c_slice_parse_validate_witness :
    extract_data ocrEnvNoJson
      = ⟨false, none, some "No valid JSON found in API response",
         some "no json here"⟩ :=
  (tier_c_slice_parse_validate ocrEnvNoJson "img" "no json here" rfl rfl).1
    (by decide)

/-- C9: extract_data never lets an exception escape — the embedding returns a
plain ExtractionResponse on every environment, every raise being caught at
src/ocr_processor.py lines 96-102 — and the response has success true
together with a record produced by the Record-model validation, or success
false together with a non-empty error message.  The hypotheses record that
the messages of exceptions raised by the environment's external calls are
non-empty, as the Python libraries involved guarantee. -/
theorem extract_data_total_response {α : Type} (env : OCREnv α)
    (hEncMsg : ∀ m, env.encode_image = Except.error m → m ≠ "")
    (hApiMsg : ∀ m, env.apiCall = Except.error m → m ≠ "")
    (hJsonMsg : ∀ t m, env.jsonLoads t = Except.error m → m ≠ "")
    (hValMsg : ∀ a m, env.validateTD a = Except.error m → m ≠ "") :
    ((extract_data env).success = true →
        ∃ a d, env.validateTD a = Except.ok d ∧
          (extract_data env).data = some d ∧ (extract_data env).error = none) ∧
    ((extract_data env).success = false →
        (extract_data env).data = none ∧
        ∃ m, (extract_data env).error = some m ∧ m ≠ "") := by
  cases hEnc : env.encode_image with
  | error m =>
      constructor
      · intro h; simp [extract_data, hEnc] at h
      · intro h
        refine ⟨by simp [extract_data, hEnc], m, by simp [extract_data, hEnc],
          hEncMsg m hEnc⟩
  | ok b =>
  cases hApi : env.apiCall with
  | error m =>
      constructor
      · intro h; simp [extract_data, hEnc, hApi] at h
      · intro h
        refine ⟨by simp [extract_data, hEnc, hApi], m,
          by simp [extract_data, hEnc, hApi], hApiMsg m hApi⟩
  | ok raw =>
  cases hEx : extract_json env.jsonLoads (raw.map String.data) with
  | none =>
      constructor
      · intro h; simp [extract_data, hEnc, hApi, hEx] at h
      · intro h
        refine ⟨by simp [extract_data, hEnc, hApi, hEx],
          "No valid JSON found in API response",
          by simp [extract_data, hEnc, hApi, hEx], by decide⟩
  | some j =>
  cases hJl : env.jsonLoads j with
  | error m =>
      constructor
      · intro h; simp [extract_data, hEnc, hApi, hEx, hJl] at h
      · intro h
        refine ⟨by simp [extract_data, hEnc, hApi, hEx, hJl], m,
          by simp [extract_data, hEnc, hApi, hEx, hJl], hJsonMsg j m hJl⟩
  | ok a =>
  cases hVal : env.validateTD a with
  | error m =>
      constructor
      · intro h; simp [extract_data, hEnc, hApi, hEx, hJl, hVal] at h
      · intro h
        refine ⟨by simp [extract_data, hEnc, hApi, hEx, hJl, hVal], m,
          by simp [extract_data, hEnc, hApi, hEx, hJl, hVal], hValMsg a m hVal⟩
  | ok d =>
      constructor
      · intro h
        exact ⟨a, d, hVal, by simp [extract_data, hEnc, hApi, hEx, hJl, hVal],
          by simp [extract_data, hEnc, hApi, hEx, hJl, hVal]⟩
      · intro h; simp [extract_data, hEnc, hApi, hEx, hJl, hVal] at h

/-- A concrete transaction record for the C9 instance. -/
def tdSmall : TransactionData := ⟨"2025-03-01", "A", "B", "C", 5⟩

/-- A concrete run environment where every call succeeds: the model answers
with an empty JSON object and validation accepts it. -/
def ocrEnvOk : OCREnv Unit :=
  ⟨Except.ok "img", Except.ok (some "\x7b\x7d"),
   fun j => if j = "\x7b\x7d".data then Except.ok () else Except.error "Expecting value",
   fun _ => Except.ok tdSmall⟩

/-- Concrete instance of the C9 theorem on the all-successful environment. -/
theorem extract_data_total_response_witness :
    ∃ a d, ocrEnvOk.validateTD a = Except.ok d ∧
      (extract_data ocrEnvOk).data = some d ∧
      (extract_data ocrEnvOk).error = none :=
  (extract_data_total_response ocrEnvOk
      (fun m h => by simp [ocrEnvOk] at h)
      (fun m h => by simp [ocrEnvOk] at h)
      (fun t m h => by
        by_cases ht : t = "\x7b\x7d".data <;> simp [ocrEnvOk, ht] at h
        rw [← h]
        decide)
      (fun a m h => by simp [ocrEnvOk] at h)).1
    (by decide)

/-- String append concatenates the underlying character lists. -/
theorem data_append_eq (s t : String) : (s ++ t).data = s.data ++ t.data := rfl

/-- A list is a contiguous segment of itself. -/
theorem isInfix_self {α : Type} (m : List α) : m <:+: m := ⟨[], [], by simp⟩

/-- Being a contiguous segment survives extending the list on the left. -/
theorem isInfix_append_left {α : Type} (s : List α) {m t : List α}
    (h : m <:+: t) : m <:+: s ++ t := by
  obtain ⟨a, b, hab⟩ := h
  exact ⟨s ++ a, b, by rw [← hab]; simp⟩

/-- Being a contiguous segment survives extending the list on the right. -/
theorem isInfix_append_right {α : Type} (t : List α) {m s : List α}
    (h : m <:+: s) : m <:+: s ++ t := by
  obtain ⟨a, b, hab⟩ := h
  exact ⟨a, b ++ t, by rw [← hab]; simp⟩

/-- The success template of _format_success_message carries all five extracted
field values and the save status it is given. -/
theorem format_success_message_contains (f : Rat → String)
    (d : TransactionData) (st : String) :
    d.sender_name.data <:+: (format_success_message f d st).data ∧
    d.receiver_name.data <:+: (format_success_message f d st).data ∧
    d.account_number.data <:+: (format_success_message f d st).data ∧
    (f d.amount).data <:+: (format_success_message f d st).data ∧
    d.date_sent.data <:+: (format_success_message f d st).data ∧
    st.data <:+: (format_success_message f d st).data := by
  refine ⟨?_, ?_, ?_, ?_, ?_, ?_⟩ <;>
  · simp only [format_success_message, data_append_eq, List.append_assoc]
    repeat
      first
        | exact isInfix_append_right _ (isInfix_self _)
        | apply isInfix_append_left

/-- C8: when extraction succeeded but append_transaction returned False with
the sheets handler present, the reply handle_image edits into the chat is the
success template with the not-saved status: it carries all five extracted
field values together with the not-saved notice, and it is not the generic
failure reply — the failed save is reported as a partial success that keeps
the extracted data visible, not silently swallowed and not a full failure. -/
theorem failed_save_reports_partial_success (fmtAmount : Rat → String)
    (d : TransactionData) (rr : Option String) :
    handle_image_reply fmtAmount ⟨true, some d, none, rr⟩ true false
      = format_success_message fmtAmount d
          "💾 Data extracted but not saved to database." ∧
    d.sender_name.data
      <:+: (handle_image_reply fmtAmount ⟨true, some d, none, rr⟩ true false).data ∧
    d.receiver_name.data
      <:+: (handle_image_reply fmtAmount ⟨true, some d, none, rr⟩ true false).data ∧
    d.account_number.data
      <:+: (handle_image_reply fmtAmount ⟨true, some d, none, rr⟩ true false).data ∧
    (fmtAmount d.amount).data
      <:+: (handle_image_reply fmtAmount ⟨true, some d, none, rr⟩ true false).data ∧
    d.date_sent.data
      <:+: (handle_image_reply fmtAmount ⟨true, some d, none, rr⟩ true false).data ∧
    "💾 Data extracted but not saved to database.".data
      <:+: (handle_image_reply fmtAmount ⟨true, some d, none, rr⟩ true false).data ∧
    handle_image_reply fmtAmount ⟨true, some d, none, rr⟩ true false
      ≠ generic_error_reply := by
  have hre : handle_image_reply fmtAmount ⟨true, some d, none, rr⟩ true false
      = format_success_message fmtAmount d
          "💾 Data extracted but not saved to database." := rfl
  obtain ⟨h1, h2, h3, h4, h5, h6⟩ :=
    format_success_message_contains fmtAmount d
      "💾 Data extracted but not saved to database."
  refine ⟨hre, ?_, ?_, ?_, ?_, ?_, ?_, ?_⟩
  · rw [hre]; exact h1
  · rw [hre]; exact h2
  · rw [hre]; exact h3
  · rw [hre]; exact h4
  · rw [hre]; exact h5
  · rw [hre]; exact h6
  · intro h
    have hhead : (handle_image_reply fmtAmount ⟨true, some d, none, rr⟩
        true false).data.take 1 = ['\n'] := rfl
    rw [h] at hhead
    exact absurd hhead (by decide)
